import Mathlib

/-!
Shallow embedding of `createDonut.py` (CreateDonutAlgorithm) from the
qgis-shapetools-plugin repository, together with proofs about the claims
of its specification.

Numbers are modelled over ℚ (exact arithmetic).  The external geodesic
solver (`geographiclib`'s `geod.Direct`) and the CRS transforms
(`QgsCoordinateTransform`) are external collaborators and appear as
function parameters; a transform may raise, hence returns `Option`.
-/

namespace CreateDonut

/-- A `QgsPointXY`: `x` is longitude, `y` is latitude (decimal degrees in the
geographic frame, or native CRS units after the sink transform). -/
structure GeoPoint where
  x : ℚ
  y : ℚ
deriving DecidableEq, Repr

/-- The external geodesic direct solver: `geod.Direct(lat, lon, azimuth, dist)`
returning the destination point `(lon2, lat2)`. -/
abbrev Geod := ℚ → ℚ → ℚ → ℚ → GeoPoint

/-- The azimuth values visited by the loop
`angle = 0; while angle < 360: ...; angle += pt_spacing`
(lines 212-219 of `createDonut.py`), starting from `angle`, with the
accumulation performed in exact rational arithmetic.  This is the
idealization under which k·(360/segments) reaches 360 after exactly
`segments` steps; the source accumulates an IEEE double instead, modelled
exactly by `angleListF`/`fl64` below, which for many segment counts stays a
hair below 360 after `segments` additions and runs one extra iteration.
The guard `0 < step` only serves termination: in the source, `pt_spacing` is
`360 / segments` with `segments ≥ 4`, so it is always positive there. -/
def angleList (step : ℚ) (angle : ℚ) : List ℚ :=
  if h : 0 < step ∧ angle < 360 then
    angle :: angleList step (angle + step)
  else []
termination_by (Int.ceil ((360 - angle) / step)).toNat
decreasing_by
  have hs : (0 : ℚ) < step := h.1
  have ha : angle < 360 := h.2
  have key : (360 - (angle + step)) / step = (360 - angle) / step - 1 := by
    field_simp
    ring
  rw [key, Int.ceil_sub_one]
  have hpos : (0 : ℚ) < (360 - angle) / step := div_pos (by linarith) hs
  have h1 : 0 < Int.ceil ((360 - angle) / step) := Int.ceil_pos.mpr hpos
  omega

/-- One ring's worth of destination points: the loop body
`g = geod.Direct(lat, lon, angle, rad, ...); pts.append(QgsPointXY(g['lon2'], g['lat2']))`
applied at every visited azimuth. -/
def rawRing (g : Geod) (lat lon rad step : ℚ) : List GeoPoint :=
  (angleList step 0).map (fun a => g lat lon a rad)

/-- `pts.append(pts[0])`: closing a ring duplicates its first point.  On an
empty list the Python subscript `pts[0]` raises `IndexError`, modelled by
`none`. -/
def closeRing (l : List GeoPoint) : Option (List GeoPoint) :=
  match l.head? with
  | some p => some (l ++ [p])
  | none => none

/-- Round a rational to the nearest IEEE binary64 value (round to nearest,
ties to even), for the normal range: `|x|` lies in the binade
`[2^e, 2^(e+1))` with `e = Int.log 2 |x|`, the unit in the last place is
`2^(e-52)`, and `x` is rounded to the nearest multiple of it.  This is the
semantics of Python float arithmetic, used to model the source's
`angle += 360.0 / segments` accumulation exactly. -/
def fl64 (x : ℚ) : ℚ :=
  if x = 0 then 0
  else
    let a := |x|
    let e := Int.log 2 a
    let ulp := (2 : ℚ) ^ (e - 52)
    let m := ⌊a / ulp⌋
    let frac := a / ulp - m
    let r : ℤ :=
      if frac < 1/2 then m
      else if 1/2 < frac then m + 1
      else if m % 2 = 0 then m else m + 1
    (if x < 0 then -1 else 1) * ((r : ℚ) * ulp)

/-- The azimuth loop of lines 212-219 with the accumulation performed in
IEEE binary64, as the Python source does: each `angle += pt_spacing` rounds
the exact sum to the nearest double.  `fuel` only bounds the recursion for
totality; a run that stops with fuel remaining stopped because the loop
guard `angle < 360` failed, exactly as in the source. -/
def angleListF (fuel : ℕ) (step : ℚ) (angle : ℚ) : List ℚ :=
  if h : fuel = 0 then []
  else if 0 < step ∧ angle < 360 then
    angle :: angleListF (fuel - 1) step (fl64 (angle + step))
  else []
termination_by fuel
decreasing_by omega

/-- `pt_spacing = 360.0 / segments` at `segments = 13`, computed in IEEE
binary64 as the source does. -/
def step13 : ℚ := fl64 (360 / 13)

/-- Modelled from the spec: `hasIdlCrossing` lives in `utils.py`, which is not
under `src/`.  Per the spec, a ring crosses the antimeridian when consecutive
points' longitudes jump by more than 180 degrees in absolute difference. -/
def hasIdlCrossing (pts : List GeoPoint) : Bool :=
  (pts.zip pts.tail).any (fun q => decide (180 < |q.1.x - q.2.x|))

/-- Modelled from the spec: `makeIdlCrossingsPositive` lives in `utils.py`,
which is not under `src/`.  Per the spec, normalizing to the positive side
shifts every longitude below 0 by +360. -/
def makeIdlCrossingsPositive (pts : List GeoPoint) : List GeoPoint :=
  pts.map (fun p => if p.x < 0 then { p with x := p.x + 360 } else p)

/-- The geometry attached to the output feature: either
`QgsGeometry.fromPolygonXY(rings)` or `QgsGeometry.fromMultiPolylineXY(lines)`. -/
inductive Geometry where
  | polygonXY (rings : List (List GeoPoint))
  | multiPolylineXY (lines : List (List GeoPoint))
deriving DecidableEq, Repr

/-- The rings/lines carried by a geometry, for counting. -/
def Geometry.rings : Geometry → List (List GeoPoint)
  | .polygonXY r => r
  | .multiPolylineXY r => r

/-- An input feature: its point geometry (`none` when `asPoint()` raises),
its attributes, and the per-feature results of evaluating the dynamic
radius properties (`valueAsDouble` returns a value and a success flag). -/
structure Feature where
  geom : Option GeoPoint
  attributes : List ℚ
  inner_eval : ℚ × Bool
  outer_eval : ℚ × Bool

/-- An output feature after `processFeature`: new geometry plus attributes. -/
structure OutFeature where
  geometry : Geometry
  attributes : List ℚ

/-- The algorithm state established by `prepareAlgorithm`. -/
structure AlgState where
  shape_type : ℤ
  outer_radius : ℚ
  outer_radius_dyn : Bool
  inner_radius : ℚ
  inner_radius_dyn : Bool
  measure_factor : ℚ
  inner_radius_converted : ℚ
  outer_radius_converted : ℚ
  pt_spacing : ℚ
  geom_to_4326 : Option (GeoPoint → Option GeoPoint)
  to_sink_crs : Option (GeoPoint → Option GeoPoint)
  export_geom : Bool
  num_bad : ℕ
  total_features : ℕ

/-- The run parameters read by `prepareAlgorithm` (already extracted from the
framework's parameter map). -/
structure Parameters where
  shape_type : ℤ
  outer_radius : ℚ
  outer_radius_dyn : Bool
  inner_radius : ℚ
  inner_radius_dyn : Bool
  units : ℕ
  segments : ℕ
  export_geom : Bool
  src_crs : ℕ
  feature_count : ℕ

def epsg4326 : ℕ := 4326

/-- `prepareAlgorithm` (lines 148-182): validates the fixed outer radius,
converts radii to meters, computes the angular spacing, and builds the two
CRS transforms only when the source CRS differs from EPSG:4326.  Returning
`none` models `return False` (the run aborts).  `conversionToMeters` (from
`utils.py`, not under `src/`) and the transform constructor are external
parameters. -/
def prepareAlgorithm (conversionToMeters : ℕ → ℚ)
    (mkTransform : ℕ → ℕ → GeoPoint → Option GeoPoint)
    (p : Parameters) : Option AlgState :=
  if p.outer_radius ≤ 0 then none
  else
    let factor := conversionToMeters p.units
    some {
      shape_type := p.shape_type
      outer_radius := p.outer_radius
      outer_radius_dyn := p.outer_radius_dyn
      inner_radius := p.inner_radius
      inner_radius_dyn := p.inner_radius_dyn
      measure_factor := factor
      inner_radius_converted := p.inner_radius * factor
      outer_radius_converted := p.outer_radius * factor
      pt_spacing := 360 / (p.segments : ℚ)
      geom_to_4326 :=
        if p.src_crs ≠ epsg4326 then some (mkTransform p.src_crs epsg4326) else none
      to_sink_crs :=
        if p.src_crs ≠ epsg4326 then some (mkTransform epsg4326 p.src_crs) else none
      export_geom := p.export_geom
      num_bad := 0
      total_features := p.feature_count }

/-- Lines 196-203: resolve the inner radius for a feature.  For a dynamic
property, an evaluation failure (`not e`) invalidates the feature; the value
is multiplied by `measure_factor`.  No sign check is performed. -/
def resolveInnerRad (st : AlgState) (f : Feature) : Option ℚ :=
  if st.inner_radius_dyn then
    if f.inner_eval.2 then some (f.inner_eval.1 * st.measure_factor) else none
  else some st.inner_radius_converted

/-- Lines 204-211: resolve the outer radius for a feature.  For a dynamic
property, an evaluation failure or a converted value ≤ 0 invalidates the
feature. -/
def resolveOuterRad (st : AlgState) (f : Feature) : Option ℚ :=
  if st.outer_radius_dyn then
    let v := f.outer_eval.1 * st.measure_factor
    if ¬ f.outer_eval.2 ∨ v ≤ 0 then none else some v
  else some st.outer_radius_converted

/-- The body of `processFeature` (lines 185-251), i.e. everything inside the
`try`.  `none` models an early `return []` after a failed radius resolution
as well as any raised exception. -/
def processFeatureBody (g : Geod) (st : AlgState) (f : Feature) :
    Option OutFeature := do
  let pt0 ← f.geom
  let pt ← match st.geom_to_4326 with
    | some tr => tr pt0
    | none => pure pt0
  let lat := pt.y
  let lon := pt.x
  let inner_rad ← resolveInnerRad st f
  let outer_rad ← resolveOuterRad st f
  let pts_in0 := if inner_rad ≠ 0 then rawRing g lat lon inner_rad st.pt_spacing else []
  let pts_out0 := rawRing g lat lon outer_rad st.pt_spacing
  let pts_in1 ← if inner_rad ≠ 0 then closeRing pts_in0 else pure ([] : List GeoPoint)
  let pts_out1 ← closeRing pts_out0
  let crosses_idl := hasIdlCrossing pts_out1
  let pts_in2 :=
    if crosses_idl then
      if inner_rad ≠ 0 then makeIdlCrossingsPositive pts_in1 else pts_in1
    else pts_in1
  let pts_out2 := if crosses_idl then makeIdlCrossingsPositive pts_out1 else pts_out1
  let pts_in3 ← match st.to_sink_crs with
    | some tr => if inner_rad ≠ 0 then pts_in2.mapM tr else pure pts_in2
    | none => pure pts_in2
  let pts_out3 ← match st.to_sink_crs with
    | some tr => pts_out2.mapM tr
    | none => pure pts_out2
  let geometry :=
    if st.shape_type = 0 then
      if inner_rad = 0 then Geometry.polygonXY [pts_out3]
      else Geometry.polygonXY [pts_out3, pts_in3]
    else
      if inner_rad = 0 then Geometry.multiPolylineXY [pts_out3]
      else Geometry.multiPolylineXY [pts_out3, pts_in3]
  let attrs := if st.export_geom then f.attributes ++ [pt0.x, pt0.y] else f.attributes
  pure { geometry := geometry, attributes := attrs }

/-- `processFeature` with its `try/except`: a failing body increments
`num_bad` and emits nothing; a successful body emits the single feature.
The second component is the updated `num_bad` counter. -/
def processFeature (g : Geod) (st : AlgState) (f : Feature) :
    List OutFeature × ℕ :=
  match processFeatureBody g st f with
  | some out => ([out], st.num_bad)
  | none => ([], st.num_bad + 1)

/-- `postProcessAlgorithm` (lines 257-260): pushes the summary message
(carrying `num_bad` and `total_features`) only when `num_bad` is truthy. -/
def postProcessAlgorithm (st : AlgState) : Option (ℕ × ℕ) :=
  if st.num_bad ≠ 0 then some (st.num_bad, st.total_features) else none

/-- Following the spec's words: the same per-feature pipeline with the
coordinate bridge removed in both directions (the identity transform is
"skipped entirely"). -/
def processFeatureNoBridge (g : Geod) (st : AlgState) (f : Feature) :
    Option OutFeature := do
  let pt ← f.geom
  let lat := pt.y
  let lon := pt.x
  let inner_rad ← resolveInnerRad st f
  let outer_rad ← resolveOuterRad st f
  let pts_in0 := if inner_rad ≠ 0 then rawRing g lat lon inner_rad st.pt_spacing else []
  let pts_out0 := rawRing g lat lon outer_rad st.pt_spacing
  let pts_in1 ← if inner_rad ≠ 0 then closeRing pts_in0 else pure ([] : List GeoPoint)
  let pts_out1 ← closeRing pts_out0
  let crosses_idl := hasIdlCrossing pts_out1
  let pts_in2 :=
    if crosses_idl then
      if inner_rad ≠ 0 then makeIdlCrossingsPositive pts_in1 else pts_in1
    else pts_in1
  let pts_out2 := if crosses_idl then makeIdlCrossingsPositive pts_out1 else pts_out1
  let geometry :=
    if st.shape_type = 0 then
      if inner_rad = 0 then Geometry.polygonXY [pts_out2]
      else Geometry.polygonXY [pts_out2, pts_in2]
    else
      if inner_rad = 0 then Geometry.multiPolylineXY [pts_out2]
      else Geometry.multiPolylineXY [pts_out2, pts_in2]
  let attrs := if st.export_geom then f.attributes ++ [pt.x, pt.y] else f.attributes
  pure { geometry := geometry, attributes := attrs }

/-! ### Concrete instances used by counterexamples and witnesses -/

/-- A simple concrete geodesic solver used for concrete evaluations: it moves
the longitude east for azimuths below 180 and west otherwise, wrapping the
result into (-180, 180], and keeps the latitude. -/
def cexG : Geod := fun lat lon az d =>
  let l := lon + (if az < 180 then d else -d)
  { x := if l > 180 then l - 360 else l, y := lat }

/-- A prepared state: fixed radii (outer 1/2, inner 3), polygon output,
4 segments (spacing 90), source CRS already EPSG:4326. -/
def cexState : AlgState where
  shape_type := 0
  outer_radius := 1/2
  outer_radius_dyn := false
  inner_radius := 3
  inner_radius_dyn := false
  measure_factor := 1
  inner_radius_converted := 3
  outer_radius_converted := 1/2
  pt_spacing := 90
  geom_to_4326 := none
  to_sink_crs := none
  export_geom := false
  num_bad := 0
  total_features := 1

/-- A feature with center near the antimeridian. -/
def cexFeature : Feature where
  geom := some { x := 179, y := 10 }
  attributes := []
  inner_eval := (0, true)
  outer_eval := (0, true)

/-- The inner ring `cexG`/`cexState`/`cexFeature` produce: it crosses the
antimeridian and carries negative longitudes. -/
def cexInnerRing : List GeoPoint :=
  [{ x := -178, y := 10 }, { x := -178, y := 10 }, { x := 176, y := 10 },
   { x := 176, y := 10 }, { x := -178, y := 10 }]

/-- The outer ring `cexG`/`cexState`/`cexFeature` produce: it does not cross
the antimeridian. -/
def cexOuterRing : List GeoPoint :=
  [{ x := 359/2, y := 10 }, { x := 359/2, y := 10 }, { x := 357/2, y := 10 },
   { x := 357/2, y := 10 }, { x := 359/2, y := 10 }]

/-- An end-of-run state in which no feature was bad. -/
def cleanRunState : AlgState :=
  { cexState with num_bad := 0, total_features := 5 }

/-- An end-of-run state in which one feature of ten was bad. -/
def badRunState : AlgState :=
  { cexState with num_bad := 1, total_features := 10 }

/-- Run parameters with a fixed outer radius of -5 (the spec's Scenario C). -/
def cexParams : Parameters where
  shape_type := 0
  outer_radius := -5
  outer_radius_dyn := false
  inner_radius := 10
  inner_radius_dyn := false
  units := 0
  segments := 36
  export_geom := false
  src_crs := 4326
  feature_count := 10

/-- `cexState` with a dynamic inner radius. -/
def dynInnerState : AlgState :=
  { cexState with inner_radius_dyn := true }

/-- A feature whose dynamic inner-radius evaluation fails. -/
def failFeature : Feature where
  geom := some { x := 0, y := 0 }
  attributes := []
  inner_eval := (0, false)
  outer_eval := (0, true)

/-- A feature whose dynamic inner radius evaluates to -3 successfully. -/
def negFeature : Feature where
  geom := some { x := 179, y := 10 }
  attributes := []
  inner_eval := (-3, true)
  outer_eval := (0, true)

/-- `cexState` with a fixed inner radius of exactly 0. -/
def zeroInnerState : AlgState :=
  { cexState with inner_radius := 0, inner_radius_converted := 0 }

/-- `cexState` with outer radius 3 (ring crosses the antimeridian) and inner
radius 1 (ring does not cross). -/
def crossState : AlgState :=
  { cexState with inner_radius := 1, inner_radius_converted := 1,
                  outer_radius := 3, outer_radius_converted := 3 }

/-- The closed ring `cexG` traces at radius 1 from (179, 10): no crossing. -/
def cexRing1 : List GeoPoint :=
  [{ x := 180, y := 10 }, { x := 180, y := 10 }, { x := 178, y := 10 },
   { x := 178, y := 10 }, { x := 180, y := 10 }]

/-- Run parameters whose source CRS is already EPSG:4326. -/
def goodParams : Parameters where
  shape_type := 0
  outer_radius := 20
  outer_radius_dyn := false
  inner_radius := 10
  inner_radius_dyn := false
  units := 0
  segments := 36
  export_geom := false
  src_crs := 4326
  feature_count := 10

/-- The state `prepareAlgorithm` builds from `goodParams` with a unit
conversion factor of 1. -/
def goodState : AlgState where
  shape_type := 0
  outer_radius := 20
  outer_radius_dyn := false
  inner_radius := 10
  inner_radius_dyn := false
  measure_factor := 1
  inner_radius_converted := 10 * 1
  outer_radius_converted := 20 * 1
  pt_spacing := 360 / ((36 : ℕ) : ℚ)
  geom_to_4326 := none
  to_sink_crs := none
  export_geom := false
  num_bad := 0
  total_features := 10

/-! ### Lemmas about the azimuth loop -/

theorem angleList_step (step angle : ℚ) (h1 : 0 < step) (h2 : angle < 360) :
    angleList step angle = angle :: angleList step (angle + step) := by
  rw [angleList.eq_def, dif_pos ⟨h1, h2⟩]

theorem angleList_stop (step angle : ℚ) (h : ¬(0 < step ∧ angle < 360)) :
    angleList step angle = [] := by
  rw [angleList.eq_def, dif_neg h]

theorem angleList_aux (n : ℕ) (hn : 0 < n) :
    ∀ m j : ℕ, j + m = n →
      angleList (360 / (n : ℚ)) ((j : ℚ) * (360 / (n : ℚ))) =
        (List.range m).map (fun k => (((j + k : ℕ) : ℚ)) * (360 / (n : ℚ))) := by
  have hn0 : ((n : ℚ)) ≠ 0 := Nat.cast_ne_zero.mpr hn.ne'
  have hs : (0 : ℚ) < 360 / (n : ℚ) := by positivity
  intro m
  induction m with
  | zero =>
    intro j hj
    have hj' : n = j := by omega
    subst hj'
    have h360 : ((n : ℚ)) * (360 / (n : ℚ)) = 360 := by field_simp
    rw [angleList_stop _ _ (by rw [h360]; simp)]
    simp
  | succ m ih =>
    intro j hj
    have hjn : j < n := by omega
    have hlt : ((j : ℚ)) * (360 / (n : ℚ)) < 360 := by
      have hc : ((j : ℚ)) < (n : ℚ) := by exact_mod_cast hjn
      calc ((j : ℚ)) * (360 / (n : ℚ)) < (n : ℚ) * (360 / (n : ℚ)) :=
            mul_lt_mul_of_pos_right hc hs
        _ = 360 := by field_simp
    rw [angleList_step _ _ hs hlt]
    have hstep : ((j : ℚ)) * (360 / (n : ℚ)) + 360 / (n : ℚ) =
        (((j + 1 : ℕ) : ℚ)) * (360 / (n : ℚ)) := by
      push_cast
      ring
    rw [hstep, ih (j + 1) (by omega), List.range_succ_eq_map]
    simp only [List.map_cons, List.map_map, Function.comp]
    congr 1
    simp only [Function.comp_def, Nat.succ_eq_add_one]
    apply List.map_congr_left
    intro k hk2
    push_cast
    ring

theorem angleList_range (n : ℕ) (hn : 0 < n) :
    angleList (360 / (n : ℚ)) 0 =
      (List.range n).map (fun k : ℕ => ((k : ℚ)) * (360 / (n : ℚ))) := by
  have h0 : ((0 : ℕ) : ℚ) * (360 / (n : ℚ)) = 0 := by norm_num
  have h := angleList_aux n hn n 0 (by omega)
  rw [h0] at h
  rw [h]
  simp only [Nat.zero_add]

theorem angleList_length (n : ℕ) (hn : 0 < n) :
    (angleList (360 / (n : ℚ)) 0).length = n := by
  rw [angleList_range n hn, List.length_map, List.length_range]

/-- Characterize `Int.log 2` by a binade bracketing. -/
theorem int_log2_eq {x : ℚ} {e : ℤ} (hx : 0 < x)
    (h1 : (2 : ℚ) ^ e ≤ x) (h2 : x < (2 : ℚ) ^ (e + 1)) : Int.log 2 x = e := by
  have hb : (1 : ℕ) < 2 := by norm_num
  have ha : (e : ℤ) ≤ Int.log 2 x := by
    rw [← Int.zpow_le_iff_le_log hb hx]
    exact_mod_cast h1
  have hc : Int.log 2 x < e + 1 := by
    rw [← Int.lt_zpow_iff_log_lt hb hx]
    exact_mod_cast h2
  omega

/-- `fl64` evaluation when the scaled value lies strictly below the midpoint:
round down. -/
theorem fl64_eq_down {x : ℚ} {e m : ℤ} (hx : 0 < x)
    (h1 : (2 : ℚ) ^ e ≤ x) (h2 : x < (2 : ℚ) ^ (e + 1))
    (hm1 : (m : ℚ) ≤ x / 2 ^ (e - 52)) (hm2 : x / 2 ^ (e - 52) < m + 1 / 2) :
    fl64 x = m * 2 ^ (e - 52) := by
  have hlog : Int.log 2 x = e := int_log2_eq hx h1 h2
  have hfloor : ⌊x / (2 : ℚ) ^ (e - 52)⌋ = m := by
    rw [Int.floor_eq_iff]
    constructor
    · exact hm1
    · calc x / (2 : ℚ) ^ (e - 52) < m + 1/2 := hm2
        _ ≤ m + 1 := by norm_num
  simp only [fl64]
  rw [if_neg hx.ne', abs_of_pos hx, hlog, hfloor]
  rw [if_neg (not_lt.mpr hx.le)]
  rw [if_pos (by push_cast; linarith : x / (2 : ℚ) ^ (e - 52) - m < 1/2)]
  ring

/-- `fl64` evaluation when the scaled value lies strictly above the midpoint:
round up. -/
theorem fl64_eq_up {x : ℚ} {e m : ℤ} (hx : 0 < x)
    (h1 : (2 : ℚ) ^ e ≤ x) (h2 : x < (2 : ℚ) ^ (e + 1))
    (hm1 : (m : ℚ) + 1 / 2 < x / 2 ^ (e - 52)) (hm2 : x / 2 ^ (e - 52) < m + 1) :
    fl64 x = (m + 1) * 2 ^ (e - 52) := by
  have hlog : Int.log 2 x = e := int_log2_eq hx h1 h2
  have hfloor : ⌊x / (2 : ℚ) ^ (e - 52)⌋ = m := by
    rw [Int.floor_eq_iff]
    refine ⟨by linarith, hm2⟩
  simp only [fl64]
  rw [if_neg hx.ne', abs_of_pos hx, hlog, hfloor]
  rw [if_neg (not_lt.mpr hx.le)]
  rw [if_neg (by push_cast; linarith : ¬(x / (2 : ℚ) ^ (e - 52) - m < 1/2))]
  rw [if_pos (by push_cast; linarith : (1 : ℚ)/2 < x / (2 : ℚ) ^ (e - 52) - m)]
  push_cast
  ring

/-- `fl64` evaluation at an exact midpoint with even lower mantissa: ties to
even keep the even neighbour. -/
theorem fl64_eq_tie_even {x : ℚ} {e m : ℤ} (hx : 0 < x)
    (h1 : (2 : ℚ) ^ e ≤ x) (h2 : x < (2 : ℚ) ^ (e + 1))
    (hm : x / 2 ^ (e - 52) = m + 1 / 2) (hev : m % 2 = 0) :
    fl64 x = m * 2 ^ (e - 52) := by
  have hlog : Int.log 2 x = e := int_log2_eq hx h1 h2
  have hfloor : ⌊x / (2 : ℚ) ^ (e - 52)⌋ = m := by
    rw [Int.floor_eq_iff]
    constructor
    · rw [hm]; norm_num
    · rw [hm]; push_cast; linarith
  simp only [fl64]
  rw [if_neg hx.ne', abs_of_pos hx, hlog, hfloor]
  rw [if_neg (not_lt.mpr hx.le)]
  rw [if_neg (by rw [hm]; push_cast; norm_num : ¬(x / (2 : ℚ) ^ (e - 52) - m < 1/2))]
  rw [if_neg (by rw [hm]; push_cast; norm_num : ¬((1 : ℚ)/2 < x / (2 : ℚ) ^ (e - 52) - m))]
  rw [if_pos hev]
  ring

/-- `360.0 / 13` in IEEE binary64. -/
theorem step13_val : step13 = 1948672915689157 / 70368744177664 := by
  have h := fl64_eq_up (x := 360/13) (e := 4) (m := 7794691662756627)
    (by norm_num) (by norm_num) (by norm_num) (by norm_num) (by norm_num)
  rw [step13, h]
  norm_num


/-- Partial sum 1 of the binary64 loop accumulator at segments = 13. -/
theorem flstep0 : fl64 (1948672915689157 / 70368744177664) = 1948672915689157 / 70368744177664 := by
  have h := fl64_eq_down (x := 1948672915689157 / 70368744177664) (e := 4) (m := 7794691662756628)
    (by norm_num) (by norm_num) (by norm_num) (by norm_num) (by norm_num)
  rw [h]
  norm_num

/-- Partial sum 2 of the binary64 loop accumulator at segments = 13. -/
theorem flstep1 : fl64 (1948672915689157 / 35184372088832) = 1948672915689157 / 35184372088832 := by
  have h := fl64_eq_down (x := 1948672915689157 / 35184372088832) (e := 5) (m := 7794691662756628)
    (by norm_num) (by norm_num) (by norm_num) (by norm_num) (by norm_num)
  rw [h]
  norm_num

/-- Partial sum 3 of the binary64 loop accumulator at segments = 13. -/
theorem flstep2 : fl64 (5846018747067471 / 70368744177664) = 5846018747067471 / 70368744177664 := by
  have h := fl64_eq_down (x := 5846018747067471 / 70368744177664) (e := 6) (m := 5846018747067471)
    (by norm_num) (by norm_num) (by norm_num) (by norm_num) (by norm_num)
  rw [h]
  norm_num

/-- Partial sum 4 of the binary64 loop accumulator at segments = 13. -/
theorem flstep3 : fl64 (1948672915689157 / 17592186044416) = 1948672915689157 / 17592186044416 := by
  have h := fl64_eq_down (x := 1948672915689157 / 17592186044416) (e := 6) (m := 7794691662756628)
    (by norm_num) (by norm_num) (by norm_num) (by norm_num) (by norm_num)
  rw [h]
  norm_num

/-- Partial sum 5 of the binary64 loop accumulator at segments = 13. -/
theorem flstep4 : fl64 (9743364578445785 / 70368744177664) = 1217920572305723 / 8796093022208 := by
  have h := fl64_eq_tie_even (x := 9743364578445785 / 70368744177664) (e := 7) (m := 4871682289222892)
    (by norm_num) (by norm_num) (by norm_num) (by norm_num) (by norm_num)
  rw [h]
  norm_num

/-- Partial sum 6 of the binary64 loop accumulator at segments = 13. -/
theorem flstep5 : fl64 (11692037494134941 / 70368744177664) = 2923009373533735 / 17592186044416 := by
  have h := fl64_eq_tie_even (x := 11692037494134941 / 70368744177664) (e := 7) (m := 5846018747067470)
    (by norm_num) (by norm_num) (by norm_num) (by norm_num) (by norm_num)
  rw [h]
  norm_num

/-- Partial sum 7 of the binary64 loop accumulator at segments = 13. -/
theorem flstep6 : fl64 (13640710409824097 / 70368744177664) = 426272200307003 / 2199023255552 := by
  have h := fl64_eq_tie_even (x := 13640710409824097 / 70368744177664) (e := 7) (m := 6820355204912048)
    (by norm_num) (by norm_num) (by norm_num) (by norm_num) (by norm_num)
  rw [h]
  norm_num

/-- Partial sum 8 of the binary64 loop accumulator at segments = 13. -/
theorem flstep7 : fl64 (15589383325513253 / 70368744177664) = 3897345831378313 / 17592186044416 := by
  have h := fl64_eq_tie_even (x := 15589383325513253 / 70368744177664) (e := 7) (m := 7794691662756626)
    (by norm_num) (by norm_num) (by norm_num) (by norm_num) (by norm_num)
  rw [h]
  norm_num

/-- Partial sum 9 of the binary64 loop accumulator at segments = 13. -/
theorem flstep8 : fl64 (17538056241202409 / 70368744177664) = 2192257030150301 / 8796093022208 := by
  have h := fl64_eq_tie_even (x := 17538056241202409 / 70368744177664) (e := 7) (m := 8769028120601204)
    (by norm_num) (by norm_num) (by norm_num) (by norm_num) (by norm_num)
  rw [h]
  norm_num

/-- Partial sum 10 of the binary64 loop accumulator at segments = 13. -/
theorem flstep9 : fl64 (19486729156891565 / 70368744177664) = 4871682289222891 / 17592186044416 := by
  have h := fl64_eq_down (x := 19486729156891565 / 70368744177664) (e := 8) (m := 4871682289222891)
    (by norm_num) (by norm_num) (by norm_num) (by norm_num) (by norm_num)
  rw [h]
  norm_num

/-- Partial sum 11 of the binary64 loop accumulator at segments = 13. -/
theorem flstep10 : fl64 (21435402072580721 / 70368744177664) = 1339712629536295 / 4398046511104 := by
  have h := fl64_eq_down (x := 21435402072580721 / 70368744177664) (e := 8) (m := 5358850518145180)
    (by norm_num) (by norm_num) (by norm_num) (by norm_num) (by norm_num)
  rw [h]
  norm_num

/-- Partial sum 12 of the binary64 loop accumulator at segments = 13. -/
theorem flstep11 : fl64 (23384074988269877 / 70368744177664) = 5846018747067469 / 17592186044416 := by
  have h := fl64_eq_down (x := 23384074988269877 / 70368744177664) (e := 8) (m := 5846018747067469)
    (by norm_num) (by norm_num) (by norm_num) (by norm_num) (by norm_num)
  rw [h]
  norm_num

/-- Partial sum 13 of the binary64 loop accumulator at segments = 13. -/
theorem flstep12 : fl64 (25332747903959033 / 70368744177664) = 3166593487994879 / 8796093022208 := by
  have h := fl64_eq_down (x := 25332747903959033 / 70368744177664) (e := 8) (m := 6333186975989758)
    (by norm_num) (by norm_num) (by norm_num) (by norm_num) (by norm_num)
  rw [h]
  norm_num

/-- Partial sum 14 of the binary64 loop accumulator at segments = 13. -/
theorem flstep13 : fl64 (27281420819648189 / 70368744177664) = 6820355204912047 / 17592186044416 := by
  have h := fl64_eq_down (x := 27281420819648189 / 70368744177664) (e := 8) (m := 6820355204912047)
    (by norm_num) (by norm_num) (by norm_num) (by norm_num) (by norm_num)
  rw [h]
  norm_num

/-- The IEEE-binary64 azimuth loop at segments = 13 visits 14 azimuths: the
accumulated double after 13 additions of `360.0/13` is
3166593487994879/8796093022208 (about 359.99999999999994), still below 360,
so the loop body runs a 14th time before the guard fails. -/
theorem angleListF_trace13 :
    angleListF 100 step13 0 = [0, 1948672915689157 / 70368744177664, 1948672915689157 / 35184372088832, 5846018747067471 / 70368744177664, 1948672915689157 / 17592186044416, 1217920572305723 / 8796093022208, 2923009373533735 / 17592186044416, 426272200307003 / 2199023255552, 3897345831378313 / 17592186044416, 2192257030150301 / 8796093022208, 4871682289222891 / 17592186044416, 1339712629536295 / 4398046511104, 5846018747067469 / 17592186044416, 3166593487994879 / 8796093022208] := by
  rw [step13_val]
  have t14 : angleListF 86 (1948672915689157 / 70368744177664) (6820355204912047 / 17592186044416) = [] := by
    rw [angleListF.eq_def]
    norm_num
  have t13 : angleListF 87 (1948672915689157 / 70368744177664) (3166593487994879 / 8796093022208) = [3166593487994879 / 8796093022208] := by
    rw [angleListF.eq_def]
    norm_num [flstep13, t14]
  have t12 : angleListF 88 (1948672915689157 / 70368744177664) (5846018747067469 / 17592186044416) = [5846018747067469 / 17592186044416, 3166593487994879 / 8796093022208] := by
    rw [angleListF.eq_def]
    norm_num [flstep12, t13]
  have t11 : angleListF 89 (1948672915689157 / 70368744177664) (1339712629536295 / 4398046511104) = [1339712629536295 / 4398046511104, 5846018747067469 / 17592186044416, 3166593487994879 / 8796093022208] := by
    rw [angleListF.eq_def]
    norm_num [flstep11, t12]
  have t10 : angleListF 90 (1948672915689157 / 70368744177664) (4871682289222891 / 17592186044416) = [4871682289222891 / 17592186044416, 1339712629536295 / 4398046511104, 5846018747067469 / 17592186044416, 3166593487994879 / 8796093022208] := by
    rw [angleListF.eq_def]
    norm_num [flstep10, t11]
  have t9 : angleListF 91 (1948672915689157 / 70368744177664) (2192257030150301 / 8796093022208) = [2192257030150301 / 8796093022208, 4871682289222891 / 17592186044416, 1339712629536295 / 4398046511104, 5846018747067469 / 17592186044416, 3166593487994879 / 8796093022208] := by
    rw [angleListF.eq_def]
    norm_num [flstep9, t10]
  have t8 : angleListF 92 (1948672915689157 / 70368744177664) (3897345831378313 / 17592186044416) = [3897345831378313 / 17592186044416, 2192257030150301 / 8796093022208, 4871682289222891 / 17592186044416, 1339712629536295 / 4398046511104, 5846018747067469 / 17592186044416, 3166593487994879 / 8796093022208] := by
    rw [angleListF.eq_def]
    norm_num [flstep8, t9]
  have t7 : angleListF 93 (1948672915689157 / 70368744177664) (426272200307003 / 2199023255552) = [426272200307003 / 2199023255552, 3897345831378313 / 17592186044416, 2192257030150301 / 8796093022208, 4871682289222891 / 17592186044416, 1339712629536295 / 4398046511104, 5846018747067469 / 17592186044416, 3166593487994879 / 8796093022208] := by
    rw [angleListF.eq_def]
    norm_num [flstep7, t8]
  have t6 : angleListF 94 (1948672915689157 / 70368744177664) (2923009373533735 / 17592186044416) = [2923009373533735 / 17592186044416, 426272200307003 / 2199023255552, 3897345831378313 / 17592186044416, 2192257030150301 / 8796093022208, 4871682289222891 / 17592186044416, 1339712629536295 / 4398046511104, 5846018747067469 / 17592186044416, 3166593487994879 / 8796093022208] := by
    rw [angleListF.eq_def]
    norm_num [flstep6, t7]
  have t5 : angleListF 95 (1948672915689157 / 70368744177664) (1217920572305723 / 8796093022208) = [1217920572305723 / 8796093022208, 2923009373533735 / 17592186044416, 426272200307003 / 2199023255552, 3897345831378313 / 17592186044416, 2192257030150301 / 8796093022208, 4871682289222891 / 17592186044416, 1339712629536295 / 4398046511104, 5846018747067469 / 17592186044416, 3166593487994879 / 8796093022208] := by
    rw [angleListF.eq_def]
    norm_num [flstep5, t6]
  have t4 : angleListF 96 (1948672915689157 / 70368744177664) (1948672915689157 / 17592186044416) = [1948672915689157 / 17592186044416, 1217920572305723 / 8796093022208, 2923009373533735 / 17592186044416, 426272200307003 / 2199023255552, 3897345831378313 / 17592186044416, 2192257030150301 / 8796093022208, 4871682289222891 / 17592186044416, 1339712629536295 / 4398046511104, 5846018747067469 / 17592186044416, 3166593487994879 / 8796093022208] := by
    rw [angleListF.eq_def]
    norm_num [flstep4, t5]
  have t3 : angleListF 97 (1948672915689157 / 70368744177664) (5846018747067471 / 70368744177664) = [5846018747067471 / 70368744177664, 1948672915689157 / 17592186044416, 1217920572305723 / 8796093022208, 2923009373533735 / 17592186044416, 426272200307003 / 2199023255552, 3897345831378313 / 17592186044416, 2192257030150301 / 8796093022208, 4871682289222891 / 17592186044416, 1339712629536295 / 4398046511104, 5846018747067469 / 17592186044416, 3166593487994879 / 8796093022208] := by
    rw [angleListF.eq_def]
    norm_num [flstep3, t4]
  have t2 : angleListF 98 (1948672915689157 / 70368744177664) (1948672915689157 / 35184372088832) = [1948672915689157 / 35184372088832, 5846018747067471 / 70368744177664, 1948672915689157 / 17592186044416, 1217920572305723 / 8796093022208, 2923009373533735 / 17592186044416, 426272200307003 / 2199023255552, 3897345831378313 / 17592186044416, 2192257030150301 / 8796093022208, 4871682289222891 / 17592186044416, 1339712629536295 / 4398046511104, 5846018747067469 / 17592186044416, 3166593487994879 / 8796093022208] := by
    rw [angleListF.eq_def]
    norm_num [flstep2, t3]
  have t1 : angleListF 99 (1948672915689157 / 70368744177664) (1948672915689157 / 70368744177664) = [1948672915689157 / 70368744177664, 1948672915689157 / 35184372088832, 5846018747067471 / 70368744177664, 1948672915689157 / 17592186044416, 1217920572305723 / 8796093022208, 2923009373533735 / 17592186044416, 426272200307003 / 2199023255552, 3897345831378313 / 17592186044416, 2192257030150301 / 8796093022208, 4871682289222891 / 17592186044416, 1339712629536295 / 4398046511104, 5846018747067469 / 17592186044416, 3166593487994879 / 8796093022208] := by
    rw [angleListF.eq_def]
    norm_num [flstep1, t2]
  have t0 : angleListF 100 (1948672915689157 / 70368744177664) (0) = [0, 1948672915689157 / 70368744177664, 1948672915689157 / 35184372088832, 5846018747067471 / 70368744177664, 1948672915689157 / 17592186044416, 1217920572305723 / 8796093022208, 2923009373533735 / 17592186044416, 426272200307003 / 2199023255552, 3897345831378313 / 17592186044416, 2192257030150301 / 8796093022208, 4871682289222891 / 17592186044416, 1339712629536295 / 4398046511104, 5846018747067469 / 17592186044416, 3166593487994879 / 8796093022208] := by
    rw [angleListF.eq_def]
    norm_num [flstep0, t1]
  exact t0

/-! ### Evaluation lemmas for the feature pipeline -/

/-- Evaluation of `processFeatureBody` when no CRS bridge is installed and the
resolved inner radius is nonzero: both rings are built, closed, and normalized
together exactly when the outer ring crosses the antimeridian. -/
theorem processFeatureBody_eval (g : Geod) (st : AlgState) (f : Feature)
    (pt : GeoPoint) (ir orr : ℚ) (li lo : List GeoPoint)
    (hgeom : f.geom = some pt)
    (h1 : st.geom_to_4326 = none) (h2 : st.to_sink_crs = none)
    (hi : resolveInnerRad st f = some ir)
    (ho : resolveOuterRad st f = some orr)
    (hir : ir ≠ 0)
    (hin : closeRing (rawRing g pt.y pt.x ir st.pt_spacing) = some li)
    (hout : closeRing (rawRing g pt.y pt.x orr st.pt_spacing) = some lo) :
    processFeatureBody g st f = some {
      geometry :=
        (if st.shape_type = 0 then Geometry.polygonXY else Geometry.multiPolylineXY)
          [if hasIdlCrossing lo then makeIdlCrossingsPositive lo else lo,
           if hasIdlCrossing lo then makeIdlCrossingsPositive li else li],
      attributes := if st.export_geom then f.attributes ++ [pt.x, pt.y]
        else f.attributes } := by
  simp only [processFeatureBody, hgeom, h1, h2, hi, ho, hir, hin, hout,
    Option.some_bind, Option.pure_def, if_neg hir, ne_eq, not_false_eq_true,
    if_true, if_false, ite_not]
  split <;> split <;> simp [hir, hin, hout]

/-- The ring of destination points, unrolled over the segment indices. -/
theorem rawRing_eq_map (g : Geod) (lat lon rad : ℚ) (n : ℕ) (hn : 0 < n) :
    rawRing g lat lon rad (360 / (n : ℚ)) =
      (List.range n).map (fun k : ℕ => g lat lon ((k : ℚ) * (360 / (n : ℚ))) rad) := by
  rw [rawRing, angleList_range n hn, List.map_map]
  rfl

/-- Closing a nonempty ring appends its first point. -/
theorem closeRing_cons (a : GeoPoint) (tl : List GeoPoint) :
    closeRing (a :: tl) = some ((a :: tl) ++ [a]) := by
  simp [closeRing]

set_option maxHeartbeats 1000000 in
/-- A failing inner-radius resolution fails the whole body. -/
theorem processFeatureBody_none_of_inner (g : Geod) (st : AlgState) (f : Feature)
    (h : resolveInnerRad st f = none) :
    processFeatureBody g st f = none := by
  cases hg : f.geom with
  | none => simp only [processFeatureBody, hg, Option.bind_eq_bind, Option.none_bind]
  | some pt =>
    cases htr : st.geom_to_4326 with
    | none =>
      simp only [processFeatureBody, hg, htr, h, Option.bind_eq_bind, Option.some_bind,
        Option.none_bind, Option.pure_def]
    | some tr =>
      cases hpt : tr pt with
      | none =>
        simp only [processFeatureBody, hg, htr, hpt, Option.bind_eq_bind, Option.some_bind,
          Option.none_bind]
      | some pt2 =>
        simp only [processFeatureBody, hg, htr, hpt, h, Option.bind_eq_bind, Option.some_bind,
          Option.none_bind]

set_option maxHeartbeats 1000000 in
theorem processFeatureBody_none_of_outer (g : Geod) (st : AlgState) (f : Feature)
    (h : resolveOuterRad st f = none) :
    processFeatureBody g st f = none := by
  cases hg : f.geom with
  | none => simp only [processFeatureBody, hg, Option.bind_eq_bind, Option.none_bind]
  | some pt =>
    cases htr : st.geom_to_4326 with
    | none =>
      cases hi : resolveInnerRad st f with
      | none =>
        simp only [processFeatureBody, hg, htr, hi, Option.bind_eq_bind, Option.some_bind,
          Option.none_bind, Option.pure_def]
      | some ir =>
        simp only [processFeatureBody, hg, htr, hi, h, Option.bind_eq_bind, Option.some_bind,
          Option.none_bind, Option.pure_def]
    | some tr =>
      cases hpt : tr pt with
      | none =>
        simp only [processFeatureBody, hg, htr, hpt, Option.bind_eq_bind, Option.some_bind,
          Option.none_bind]
      | some pt2 =>
        cases hi : resolveInnerRad st f with
        | none =>
          simp only [processFeatureBody, hg, htr, hpt, hi, Option.bind_eq_bind,
            Option.some_bind, Option.none_bind, Option.pure_def]
        | some ir =>
          simp only [processFeatureBody, hg, htr, hpt, hi, h, Option.bind_eq_bind,
            Option.some_bind, Option.none_bind, Option.pure_def]


set_option maxHeartbeats 1000000 in
/-- If the resolved inner radius is 0, any emitted geometry carries a single
ring, whatever the shape type and CRS bridge. -/
theorem rings_of_inner_zero (g : Geod) (st : AlgState) (f : Feature) (out : OutFeature)
    (hi : resolveInnerRad st f = some 0)
    (hb : processFeatureBody g st f = some out) :
    (Geometry.rings out.geometry).length = 1 := by
  cases hbr : st.geom_to_4326 with
  | none =>
    cases hsink : st.to_sink_crs with
    | none =>
      simp only [processFeatureBody, hi, hbr, hsink, Option.bind_eq_bind, Option.some_bind,
        Option.pure_def] at hb
      norm_num at hb
      repeat (rw [Option.bind_eq_some] at hb
              obtain ⟨_, -, hb⟩ := hb)
      first
        | (injection hb with hb
           subst hb
           by_cases hshape : st.shape_type = 0 <;> simp [hshape, Geometry.rings])
        | (subst hb
           by_cases hshape : st.shape_type = 0 <;> simp [hshape, Geometry.rings])
    | some tr =>
      simp only [processFeatureBody, hi, hbr, hsink, Option.bind_eq_bind, Option.some_bind,
        Option.pure_def] at hb
      norm_num at hb
      repeat (rw [Option.bind_eq_some] at hb
              obtain ⟨_, -, hb⟩ := hb)
      first
        | (injection hb with hb
           subst hb
           by_cases hshape : st.shape_type = 0 <;> simp [hshape, Geometry.rings])
        | (subst hb
           by_cases hshape : st.shape_type = 0 <;> simp [hshape, Geometry.rings])
  | some tr0 =>
    cases hsink : st.to_sink_crs with
    | none =>
      simp only [processFeatureBody, hi, hbr, hsink, Option.bind_eq_bind, Option.some_bind,
        Option.pure_def] at hb
      norm_num at hb
      repeat (rw [Option.bind_eq_some] at hb
              obtain ⟨_, -, hb⟩ := hb)
      first
        | (injection hb with hb
           subst hb
           by_cases hshape : st.shape_type = 0 <;> simp [hshape, Geometry.rings])
        | (subst hb
           by_cases hshape : st.shape_type = 0 <;> simp [hshape, Geometry.rings])
    | some tr =>
      simp only [processFeatureBody, hi, hbr, hsink, Option.bind_eq_bind, Option.some_bind,
        Option.pure_def] at hb
      norm_num at hb
      repeat (rw [Option.bind_eq_some] at hb
              obtain ⟨_, -, hb⟩ := hb)
      first
        | (injection hb with hb
           subst hb
           by_cases hshape : st.shape_type = 0 <;> simp [hshape, Geometry.rings])
        | (subst hb
           by_cases hshape : st.shape_type = 0 <;> simp [hshape, Geometry.rings])

/-- The closed ring built from the azimuth loop: existence, length, pointwise
values at the loop azimuths, and closure. -/
theorem closedRing_spec (g : Geod) (lat lon rad : ℚ) (n : ℕ) (hn0 : 0 < n) :
    ∃ rg, closeRing (rawRing g lat lon rad (360 / (n : ℚ))) = some rg ∧
      rg.length = n + 1 ∧
      (∀ i : ℕ, i < n → rg[i]? = some (g lat lon ((i : ℚ) * (360 / (n : ℚ))) rad)) ∧
      rg.getLast? = rg.head? := by
  have hmap := rawRing_eq_map g lat lon rad n hn0
  have hlenraw : (rawRing g lat lon rad (360 / (n : ℚ))).length = n := by
    rw [hmap, List.length_map, List.length_range]
  have hne : rawRing g lat lon rad (360 / (n : ℚ)) ≠ [] := by
    intro h0
    rw [h0] at hlenraw
    simp at hlenraw
    omega
  cases hh : (rawRing g lat lon rad (360 / (n : ℚ))).head? with
  | none => exact absurd (List.head?_eq_none_iff.mp hh) hne
  | some a =>
    refine ⟨rawRing g lat lon rad (360 / (n : ℚ)) ++ [a], ?_, ?_, ?_, ?_⟩
    · rw [closeRing, hh]
    · rw [List.length_append, hlenraw]
      rfl
    · intro i hi2
      rw [List.getElem?_append_left (by rw [hlenraw]; exact hi2), hmap,
        List.getElem?_map, List.getElem?_range hi2, Option.map_some']
    · rw [List.getLast?_concat, List.head?_append, hh]
      rfl

/-! ### Claims -/

/-- C1: the claim asserts exactly segmentCount azimuth points and a closed
ring of segmentCount + 1 points for every segmentCount ≥ 4.  The exact-
arithmetic loop does yield 13 azimuths at segments = 13, but the source
accumulates an IEEE double: after 13 additions of `360.0/13` the accumulator
is 3166593487994879/8796093022208 (just below 360), the loop runs a 14th
time, and the closed ring has 15 = segmentCount + 2 points.  The spec (and
the parameter's name, "Number of drawing segments") is the intent; the
float-accumulated loop guard is the slip. -/
theorem float_loop_overrun_13 :
    (angleListF 100 step13 0).length = 13 + 1 ∧
    (Option.map List.length
      (closeRing ((angleListF 100 step13 0).map (fun a => cexG 0 0 a 1)))) =
      some (13 + 2) ∧
    (angleList (360 / ((13 : ℕ) : ℚ)) 0).length = 13 := by
  refine ⟨?_, ?_, angleList_length 13 (by norm_num)⟩
  · rw [angleListF_trace13]
    rfl
  · rw [angleListF_trace13, List.map_cons, closeRing_cons]
    simp

/-- C4: a fixed (non-dynamic) outer radius ≤ 0 makes `prepareAlgorithm` abort
the run (return `False`) before any feature is processed. -/
theorem config_abort_on_nonpositive_outer (conv : ℕ → ℚ)
    (mk : ℕ → ℕ → GeoPoint → Option GeoPoint) (p : Parameters)
    (h : p.outer_radius ≤ 0) :
    prepareAlgorithm conv mk p = none := by
  simp [prepareAlgorithm, h]

/-- Witness for C4 at the spec's Scenario C (fixed outer radius -5). -/
theorem config_abort_on_nonpositive_outer_witness :
    cexParams.outer_radius ≤ 0 ∧
      prepareAlgorithm (fun _ => 1) (fun _ _ q => some q) cexParams = none :=
  ⟨by norm_num [cexParams], config_abort_on_nonpositive_outer (fun _ => 1)
    (fun _ _ q => some q) cexParams (by norm_num [cexParams])⟩

/-- C7: the per-feature pipeline is deterministic — two runs over the same
feature and state are identical, and a fixed outer radius always resolves to
the same pre-converted meters value. -/
theorem pipeline_deterministic (g : Geod) (st : AlgState) (f : Feature)
    (r1 r2 : List OutFeature × ℕ)
    (h1 : r1 = processFeature g st f) (h2 : r2 = processFeature g st f)
    (hfix : st.outer_radius_dyn = false) :
    r1 = r2 ∧ resolveOuterRad st f = some st.outer_radius_converted := by
  subst h1
  subst h2
  exact ⟨rfl, by simp [resolveOuterRad, hfix]⟩

/-- Witness for C7 on a concrete feature and state. -/
theorem pipeline_deterministic_witness :
    processFeature cexG cexState cexFeature = processFeature cexG cexState cexFeature ∧
      resolveOuterRad cexState cexFeature = some cexState.outer_radius_converted :=
  pipeline_deterministic cexG cexState cexFeature
    (processFeature cexG cexState cexFeature)
    (processFeature cexG cexState cexFeature) rfl rfl rfl

/-- C8 counterexample: a run in which every feature succeeded pushes no
end-of-run summary at all, so the count is not reported at the end of every
run. -/
theorem summary_missing_when_no_bad :
    cleanRunState.num_bad = 0 ∧ cleanRunState.total_features = 5 ∧
      postProcessAlgorithm cleanRunState = none :=
  ⟨rfl, rfl, rfl⟩

/-- C8 amended: at the end of a run in which at least one feature was bad, the
summary reports the bad count out of the total feature count; when no feature
was bad, no summary is pushed. -/
theorem summary_reported_when_bad (st : AlgState) (h : st.num_bad ≠ 0) :
    postProcessAlgorithm st = some (st.num_bad, st.total_features) := by
  simp [postProcessAlgorithm, h]

/-- Witness for the amended C8 on a run with one bad feature of ten. -/
theorem summary_reported_when_bad_witness :
    badRunState.num_bad ≠ 0 ∧
      postProcessAlgorithm badRunState = some (badRunState.num_bad, badRunState.total_features) :=
  ⟨by decide, summary_reported_when_bad badRunState (by decide)⟩

/-- C10: whenever both rings are generated (inner radius ≠ 0), the closed
inner and outer rings have the same number of points, the i-th point of each
is produced from the same azimuth i·(360/segments) around the same center,
and each ring is closed by duplicating its own first point. -/
theorem rings_pointwise_azimuth (g : Geod) (lat lon inner outer : ℚ) (n : ℕ)
    (hn : 4 ≤ n) (hi : inner ≠ 0) :
    ∃ ri ro,
      closeRing (rawRing g lat lon inner (360 / (n : ℚ))) = some ri ∧
      closeRing (rawRing g lat lon outer (360 / (n : ℚ))) = some ro ∧
      ri.length = ro.length ∧
      (∀ i : ℕ, i < n →
        ri[i]? = some (g lat lon ((i : ℚ) * (360 / (n : ℚ))) inner) ∧
        ro[i]? = some (g lat lon ((i : ℚ) * (360 / (n : ℚ))) outer)) ∧
      ri.getLast? = ri.head? ∧ ro.getLast? = ro.head? := by
  have hn0 : 0 < n := by omega
  obtain ⟨ri, hri, hli, hidxI, hclI⟩ := closedRing_spec g lat lon inner n hn0
  obtain ⟨ro, hro, hlo, hidxO, hclO⟩ := closedRing_spec g lat lon outer n hn0
  refine ⟨ri, ro, hri, hro, ?_, ?_, hclI, hclO⟩
  · rw [hli, hlo]
  · intro i hi2
    exact ⟨hidxI i hi2, hidxO i hi2⟩

/-- Witness for C10 at inner radius 3, outer radius 1/2, 4 segments. -/
theorem rings_pointwise_azimuth_witness :
    4 ≤ 4 ∧ (3 : ℚ) ≠ 0 ∧
      (∃ ri ro,
        closeRing (rawRing cexG 10 179 3 (360 / ((4 : ℕ) : ℚ))) = some ri ∧
        closeRing (rawRing cexG 10 179 (1/2) (360 / ((4 : ℕ) : ℚ))) = some ro ∧
        ri.length = ro.length ∧
        (∀ i : ℕ, i < 4 →
          ri[i]? = some (cexG 10 179 ((i : ℚ) * (360 / ((4 : ℕ) : ℚ))) 3) ∧
          ro[i]? = some (cexG 10 179 ((i : ℚ) * (360 / ((4 : ℕ) : ℚ))) (1/2))) ∧
        ri.getLast? = ri.head? ∧ ro.getLast? = ro.head?) :=
  ⟨by norm_num, by norm_num,
    rings_pointwise_azimuth cexG 10 179 3 (1/2) 4 (by norm_num) (by norm_num)⟩

/-- Concrete azimuths for 4 segments. -/
theorem angleList_90 : angleList 90 0 = [0, 90, 180, 270] := by
  rw [angleList_step 90 0 (by norm_num) (by norm_num)]
  rw [angleList_step 90 (0 + 90) (by norm_num) (by norm_num)]
  rw [angleList_step 90 (0 + 90 + 90) (by norm_num) (by norm_num)]
  rw [angleList_step 90 (0 + 90 + 90 + 90) (by norm_num) (by norm_num)]
  rw [angleList_stop 90 (0 + 90 + 90 + 90 + 90) (by norm_num)]
  norm_num

/-- The closed radius-3 ring around (179, 10) under `cexG`. -/
theorem ringEval3 : closeRing (rawRing cexG 10 179 3 90) = some cexInnerRing := by
  rw [rawRing, angleList_90]
  norm_num [cexG, closeRing, cexInnerRing]

/-- The closed radius-1/2 ring around (179, 10) under `cexG`. -/
theorem ringEvalHalf : closeRing (rawRing cexG 10 179 (1/2) 90) = some cexOuterRing := by
  rw [rawRing, angleList_90]
  norm_num [cexG, closeRing, cexOuterRing]

/-- The closed radius-1 ring around (179, 10) under `cexG`. -/
theorem ringEval1 : closeRing (rawRing cexG 10 179 1 90) = some cexRing1 := by
  rw [rawRing, angleList_90]
  norm_num [cexG, closeRing, cexRing1]

/-- A successful body emits the single feature without touching the counter. -/
theorem processFeature_some (g : Geod) (st : AlgState) (f : Feature)
    (o : OutFeature) (h : processFeatureBody g st f = some o) :
    processFeature g st f = ([o], st.num_bad) := by
  simp [processFeature, h]

/-- A positive angular spacing always yields a nonempty, closable ring. -/
theorem closeRing_rawRing_isSome (g : Geod) (lat lon rad step : ℚ)
    (h1 : 0 < step) :
    ∃ l, closeRing (rawRing g lat lon rad step) = some l := by
  rw [rawRing, angleList_step step 0 h1 (by norm_num), List.map_cons]
  exact ⟨_, closeRing_cons _ _⟩

set_option maxHeartbeats 1000000 in
/-- With no CRS bridge installed, the pipeline coincides with the bridge-free
pipeline. -/
theorem body_eq_noBridge (g : Geod) (st : AlgState) (f : Feature)
    (h1 : st.geom_to_4326 = none) (h2 : st.to_sink_crs = none) :
    processFeatureBody g st f = processFeatureNoBridge g st f := by
  cases hg : f.geom with
  | none =>
    simp only [processFeatureBody, processFeatureNoBridge, hg, Option.bind_eq_bind,
      Option.none_bind]
  | some pt =>
    simp only [processFeatureBody, processFeatureNoBridge, hg, h1, h2,
      Option.bind_eq_bind, Option.some_bind, Option.pure_def]

/-- C2 counterexample: under `cexG`/`cexState`/`cexFeature` the inner ring
crosses the antimeridian while the outer ring does not, and the emitted
polygon keeps the inner ring unnormalized — it still carries negative
longitudes — because the code checks only the outer ring. -/
theorem antimeridian_inner_only_cex :
    processFeatureBody cexG cexState cexFeature =
      some { geometry := Geometry.polygonXY [cexOuterRing, cexInnerRing],
             attributes := [] } ∧
    hasIdlCrossing cexInnerRing = true ∧
    hasIdlCrossing cexOuterRing = false ∧
    makeIdlCrossingsPositive cexInnerRing ≠ cexInnerRing ∧
    cexInnerRing.any (fun p => decide (p.x < 0)) = true := by
  have hcrI : hasIdlCrossing cexInnerRing = true := by
    norm_num [hasIdlCrossing, cexInnerRing]
  have hcrO : hasIdlCrossing cexOuterRing = false := by
    norm_num [hasIdlCrossing, cexOuterRing]
  have hnorm : makeIdlCrossingsPositive cexInnerRing ≠ cexInnerRing := by
    norm_num [makeIdlCrossingsPositive, cexInnerRing]
  have hneglon : cexInnerRing.any (fun p => decide (p.x < 0)) = true := by
    norm_num [cexInnerRing]
  refine ⟨?_, hcrI, hcrO, hnorm, hneglon⟩
  have hb := processFeatureBody_eval cexG cexState cexFeature
    { x := 179, y := 10 } 3 (1/2) cexInnerRing cexOuterRing
    rfl rfl rfl rfl rfl (by norm_num) ringEval3 ringEvalHalf
  rw [hb, hcrO]
  simp [cexState, cexFeature]

/-- C2 corrected: normalization is driven by the outer ring alone — whenever
the OUTER ring crosses the antimeridian, both rings are normalized to the
positive side together; a crossing of only the inner ring triggers nothing. -/
theorem antimeridian_outer_crossing_normalizes_both (g : Geod) (st : AlgState)
    (f : Feature) (pt : GeoPoint) (ir orr : ℚ) (li lo : List GeoPoint)
    (hgeom : f.geom = some pt)
    (h1 : st.geom_to_4326 = none) (h2 : st.to_sink_crs = none)
    (hi : resolveInnerRad st f = some ir)
    (ho : resolveOuterRad st f = some orr)
    (hir : ir ≠ 0)
    (hin : closeRing (rawRing g pt.y pt.x ir st.pt_spacing) = some li)
    (hout : closeRing (rawRing g pt.y pt.x orr st.pt_spacing) = some lo)
    (hcross : hasIdlCrossing lo = true) :
    processFeatureBody g st f = some {
      geometry :=
        (if st.shape_type = 0 then Geometry.polygonXY else Geometry.multiPolylineXY)
          [makeIdlCrossingsPositive lo, makeIdlCrossingsPositive li],
      attributes := if st.export_geom then f.attributes ++ [pt.x, pt.y]
        else f.attributes } := by
  rw [processFeatureBody_eval g st f pt ir orr li lo hgeom h1 h2 hi ho hir hin hout,
    hcross]
  simp

/-- Witness for the corrected C2: outer radius 3 (crossing), inner radius 1
(no crossing) — both rings are normalized together. -/
theorem antimeridian_outer_crossing_normalizes_both_witness :
    hasIdlCrossing cexInnerRing = true ∧ (1 : ℚ) ≠ 0 ∧
      processFeatureBody cexG crossState cexFeature = some {
        geometry :=
          (if crossState.shape_type = 0 then Geometry.polygonXY
            else Geometry.multiPolylineXY)
            [makeIdlCrossingsPositive cexInnerRing, makeIdlCrossingsPositive cexRing1],
        attributes := if crossState.export_geom then
            cexFeature.attributes ++
              [({ x := 179, y := 10 } : GeoPoint).x, ({ x := 179, y := 10 } : GeoPoint).y]
          else cexFeature.attributes } :=
  ⟨by norm_num [hasIdlCrossing, cexInnerRing], by norm_num,
    antimeridian_outer_crossing_normalizes_both cexG crossState cexFeature
      { x := 179, y := 10 } 1 3 cexRing1 cexInnerRing
      rfl rfl rfl rfl rfl (by norm_num) ringEval1 ringEval3
      (by norm_num [hasIdlCrossing, cexInnerRing])⟩

/-- C3: every per-feature error — a failed dynamic radius evaluation, a
non-positive resolved outer radius, or any failure inside the body — drops
the feature (empty output, no partial geometry) and increments the
bad-feature counter by one. -/
theorem per_feature_error_skips (g : Geod) (st : AlgState) (f : Feature)
    (h : (st.inner_radius_dyn = true ∧ f.inner_eval.2 = false)
       ∨ (st.outer_radius_dyn = true ∧
           (f.outer_eval.2 = false ∨ f.outer_eval.1 * st.measure_factor ≤ 0))
       ∨ processFeatureBody g st f = none) :
    processFeature g st f = ([], st.num_bad + 1) := by
  have hb : processFeatureBody g st f = none := by
    rcases h with ⟨hd, he⟩ | ⟨hd, he⟩ | hb
    · exact processFeatureBody_none_of_inner g st f (by simp [resolveInnerRad, hd, he])
    · refine processFeatureBody_none_of_outer g st f ?_
      rcases he with he | he
      · simp [resolveOuterRad, hd, he]
      · simp [resolveOuterRad, hd, he]
    · exact hb
  rw [processFeature, hb]

/-- Witness for C3: a failing dynamic inner-radius evaluation. -/
theorem per_feature_error_skips_witness :
    ((dynInnerState.inner_radius_dyn = true ∧ failFeature.inner_eval.2 = false)
      ∨ (dynInnerState.outer_radius_dyn = true ∧
          (failFeature.outer_eval.2 = false ∨
            failFeature.outer_eval.1 * dynInnerState.measure_factor ≤ 0))
      ∨ processFeatureBody cexG dynInnerState failFeature = none) ∧
    processFeature cexG dynInnerState failFeature = ([], dynInnerState.num_bad + 1) :=
  ⟨Or.inl ⟨rfl, rfl⟩,
    per_feature_error_skips cexG dynInnerState failFeature (Or.inl ⟨rfl, rfl⟩)⟩

/-- C5: whenever the resolved inner radius is exactly 0, every emitted output
feature carries a geometry with a single ring — no hole for polygons, a
single line ring for lines — regardless of the shape type. -/
theorem inner_zero_single_ring (g : Geod) (st : AlgState) (f : Feature)
    (hi : resolveInnerRad st f = some 0) :
    ∀ out ∈ (processFeature g st f).1, (Geometry.rings out.geometry).length = 1 := by
  intro out hout
  unfold processFeature at hout
  cases hb : processFeatureBody g st f with
  | none =>
    rw [hb] at hout
    simp at hout
  | some o =>
    rw [hb] at hout
    simp only [List.mem_singleton] at hout
    subst hout
    exact rings_of_inner_zero g st f out hi hb

/-- Witness for C5 at a fixed inner radius of 0. -/
theorem inner_zero_single_ring_witness :
    resolveInnerRad zeroInnerState cexFeature = some 0 ∧
      ∀ out ∈ (processFeature cexG zeroInnerState cexFeature).1,
        (Geometry.rings out.geometry).length = 1 :=
  ⟨rfl, inner_zero_single_ring cexG zeroInnerState cexFeature rfl⟩

/-- C6: when the source CRS is already EPSG:4326, `prepareAlgorithm` installs
no transform in either direction and the per-feature pipeline coincides with
the bridge-free pipeline — points are used exactly as produced. -/
theorem epsg4326_identity_bridge (conv : ℕ → ℚ)
    (mk : ℕ → ℕ → GeoPoint → Option GeoPoint) (p : Parameters) (st : AlgState)
    (g : Geod) (f : Feature)
    (hcrs : p.src_crs = epsg4326)
    (hprep : prepareAlgorithm conv mk p = some st) :
    st.geom_to_4326 = none ∧ st.to_sink_crs = none ∧
      processFeatureBody g st f = processFeatureNoBridge g st f := by
  unfold prepareAlgorithm at hprep
  split at hprep
  · exact absurd hprep (by simp)
  · have hst := Option.some.inj hprep
    subst hst
    refine ⟨by simp [hcrs], by simp [hcrs], ?_⟩
    exact body_eq_noBridge g _ f (by simp [hcrs]) (by simp [hcrs])

/-- Witness for C6 with a source CRS of EPSG:4326. -/
theorem epsg4326_identity_bridge_witness :
    goodParams.src_crs = epsg4326 ∧
    prepareAlgorithm (fun _ => 1) (fun _ _ q => some q) goodParams = some goodState ∧
    (goodState.geom_to_4326 = none ∧ goodState.to_sink_crs = none ∧
      processFeatureBody cexG goodState cexFeature =
        processFeatureNoBridge cexG goodState cexFeature) := by
  have hp : prepareAlgorithm (fun _ => 1) (fun _ _ q => some q) goodParams =
      some goodState := by
    norm_num [prepareAlgorithm, goodParams, goodState, epsg4326]
  exact ⟨rfl, hp, epsg4326_identity_bridge (fun _ => 1) (fun _ _ q => some q)
    goodParams goodState cexG cexFeature rfl hp⟩

/-- C9: a dynamically resolved inner radius that is strictly negative is not
rejected — the feature is still processed (counter unchanged, one output
feature) and an inner ring is generated, so the geometry carries two rings. -/
theorem negative_inner_not_rejected (g : Geod) (st : AlgState) (f : Feature)
    (pt : GeoPoint) (v orr : ℚ)
    (hdyn : st.inner_radius_dyn = true)
    (heval : f.inner_eval = (v, true))
    (hneg : v * st.measure_factor < 0)
    (hgeom : f.geom = some pt)
    (h1 : st.geom_to_4326 = none) (h2 : st.to_sink_crs = none)
    (ho : resolveOuterRad st f = some orr)
    (hs : 0 < st.pt_spacing) :
    ∃ out, processFeature g st f = ([out], st.num_bad) ∧
      (Geometry.rings out.geometry).length = 2 := by
  have hi : resolveInnerRad st f = some (v * st.measure_factor) := by
    simp [resolveInnerRad, hdyn, heval]
  have hir : v * st.measure_factor ≠ 0 := ne_of_lt hneg
  obtain ⟨li, hli⟩ :=
    closeRing_rawRing_isSome g pt.y pt.x (v * st.measure_factor) st.pt_spacing hs
  obtain ⟨lo, hlo⟩ := closeRing_rawRing_isSome g pt.y pt.x orr st.pt_spacing hs
  have hb := processFeatureBody_eval g st f pt (v * st.measure_factor) orr li lo
    hgeom h1 h2 hi ho hir hli hlo
  refine ⟨_, processFeature_some g st f _ hb, ?_⟩
  by_cases hshape : st.shape_type = 0 <;> simp [hshape, Geometry.rings]

/-- Witness for C9 at a dynamic inner radius of -3. -/
theorem negative_inner_not_rejected_witness :
    dynInnerState.inner_radius_dyn = true ∧
    negFeature.inner_eval = (-3, true) ∧
    (-3 : ℚ) * dynInnerState.measure_factor < 0 ∧
    negFeature.geom = some { x := 179, y := 10 } ∧
    dynInnerState.geom_to_4326 = none ∧ dynInnerState.to_sink_crs = none ∧
    resolveOuterRad dynInnerState negFeature = some (1/2) ∧
    0 < dynInnerState.pt_spacing ∧
    (∃ out, processFeature cexG dynInnerState negFeature =
        ([out], dynInnerState.num_bad) ∧
      (Geometry.rings out.geometry).length = 2) :=
  ⟨rfl, rfl, by norm_num [dynInnerState, cexState], rfl, rfl, rfl, rfl,
    by norm_num [dynInnerState, cexState],
    negative_inner_not_rejected cexG dynInnerState negFeature
      { x := 179, y := 10 } (-3) (1/2) rfl rfl
      (by norm_num [dynInnerState, cexState]) rfl rfl rfl rfl
      (by norm_num [dynInnerState, cexState])⟩

end CreateDonut
